import Mathlib

/-!
Verification of the refinement-types library: a shallow embedding of the
predicate abstraction (`core.rs`), the logical combinators (`logic.rs`),
the integer comparison / interval / modulo predicates (`int/macros.rs`),
and the string trimming predicates (`str/core.rs`), together with proofs
of the behavioural properties stated in the specification.

Rust `Result<(), E>` is embedded as `Except E Unit`; strings checked by
predicates are embedded as `List Char`; fixed-width integer values are
embedded as `Int` (comparisons and equality on fixed-width integers agree
with the mathematical ones, so no wrap-around modelling is needed there);
the one partial operation, Rust `%`, is embedded with an explicit `Option`
so that its panic cases are visible.
-/

instance {ε : Type} {α : Type} [DecidableEq ε] [DecidableEq α] : DecidableEq (Except ε α) := fun x y =>
  match x, y with
  | .ok a, .ok b =>
    if h : a = b then .isTrue (by rw [h]) else .isFalse (by simp [h])
  | .error e, .error f =>
    if h : e = f then .isTrue (by rw [h]) else .isFalse (by simp [h])
  | .ok _, .error _ => .isFalse (by simp)
  | .error _, .ok _ => .isFalse (by simp)

namespace RefinementTypes

/-- Embeds the `Predicate<T>` trait of `core.rs`: a check together with the
`expect` and `expect_code` description channels (embedded as the strings the
formatter-based implementations write). -/
structure Predicate (T : Type) (E : Type) where
  check : T → Except E Unit
  expect : String
  expect_code : String

/-- Embeds `Predicate::is_satisfied`: `check(value).is_ok()`. -/
def Predicate.is_satisfied {T E : Type} (P : Predicate T E) (value : T) : Bool :=
  (P.check value).isOk

/-- Embeds the `NoContext` type-level string of `core.rs` (`"no context"`). -/
def NoContext : String := "no context"

/-- Embeds `Error<T, P, C>` of `core.rs`: the rejected value together with the
predicate failure detail. The context is passed separately where needed, since
it is a type-level string in the source. -/
structure Error (T : Type) (E : Type) where
  value : T
  error : E
deriving DecidableEq

/-- Embeds `Error::into_parts`: the contained value and the received error. -/
def Error.into_parts {T E : Type} (e : Error T E) : T × E :=
  (e.value, e.error)

/-- Embeds the `Display` implementation for `Error` in `core.rs`:
`"expected {expected} (code `{code}`) [{context}]"`. It uses only the
predicate statics and the context, never the fields of the error. -/
def Error.render {T E : Type} (P : Predicate T E) (context : String) (_e : Error T E) : String :=
  "expected " ++ P.expect ++ " (code `" ++ P.expect_code ++ "`) [" ++ context ++ "]"

/-- Modelled from the spec: the revision under `src/` has no `erase` method on
`Error` (only `into_parts`). Per the spec, `erase` returns the rejected value
together with the rendered message, discarding the typed failure detail.
The rendered message is the source's `Display` output for `Error`. -/
def Error.erase {T E : Type} (P : Predicate T E) (context : String) (e : Error T E) : T × String :=
  (e.value, Error.render P context e)

/-- Modelled from the spec: the revision under `src/` has no `message` method
on `Error`. Per the spec, `message` returns only the rendered message,
dropping both the rejected value and the failure detail. -/
def Error.message {T E : Type} (P : Predicate T E) (context : String) (e : Error T E) : String :=
  Error.render P context e

/-- Embeds `Refinement<T, P, C>` of `core.rs`: a container around a value of
type `T`, indexed by the predicate it was validated against. -/
structure Refinement (T : Type) (E : Type) (P : Predicate T E) where
  value : T
deriving DecidableEq

/-- Embeds `Refinement::unchecked`: wraps the value without checking it. -/
def Refinement.unchecked {T E : Type} {P : Predicate T E} (value : T) : Refinement T E P :=
  ⟨value⟩

/-- Embeds `Refinement::refine`: runs the predicate check; on success wraps the
value unchecked, on failure returns `Error::new(value, error)`. -/
def Refinement.refine {T E : Type} (P : Predicate T E) (value : T) :
    Except (Error T E) (Refinement T E P) :=
  match P.check value with
  | .ok () => .ok (Refinement.unchecked value)
  | .error error => .error (Error.mk value error)

/-- Embeds `Refinement::get`: a read-only view of the contained value. -/
def Refinement.get {T E : Type} {P : Predicate T E} (r : Refinement T E P) : T :=
  r.value

/-- Embeds `Refinement::take`: consumes the wrapper, returning the value. -/
def Refinement.take {T E : Type} {P : Predicate T E} (r : Refinement T E P) : T :=
  r.value

/-- Embeds `EitherError<E, F>` of `logic.rs`, the error type of `And`. -/
inductive EitherError (E : Type) (F : Type) where
  | Left (error : E)
  | Right (error : F)
deriving DecidableEq

/-- Embeds `BothError<E, F>` of `logic.rs`, the error type of `Or`. -/
structure BothError (E : Type) (F : Type) where
  left : E
  right : F
deriving DecidableEq

/-- Embeds `NotError` of `logic.rs`, the unit error type of `Not`. -/
structure NotError where
deriving DecidableEq

/-- Embeds `NeitherOrBoth<E, F>` of `logic.rs`, the error type of `Xor`:
`Neither` is documented in the source as "neither error encountered" and
`Both` as "both errors encountered". -/
inductive NeitherOrBoth (E : Type) (F : Type) where
  | Neither
  | Both (both : BothError E F)
deriving DecidableEq

/-- Embeds `And<P, Q>` of `logic.rs`:
`P::check(value).map_err(Left).and_then(|()| Q::check(value).map_err(Right))`. -/
def And {T E F : Type} (P : Predicate T E) (Q : Predicate T F) :
    Predicate T (EitherError E F) where
  check value :=
    ((P.check value).mapError EitherError.Left).bind
      fun _ => (Q.check value).mapError EitherError.Right
  expect := "(" ++ P.expect ++ ") and (" ++ Q.expect ++ ")"
  expect_code := "and<" ++ P.expect_code ++ ", " ++ Q.expect_code ++ ">"

/-- Embeds `Or<P, Q>` of `logic.rs`:
`P::check(value).or_else(|left| Q::check(value).map_err(|right| BothError::new(left, right)))`. -/
def Or {T E F : Type} (P : Predicate T E) (Q : Predicate T F) :
    Predicate T (BothError E F) where
  check value :=
    match P.check value with
    | .ok () => .ok ()
    | .error left => (Q.check value).mapError fun right => BothError.mk left right
  expect := "(" ++ P.expect ++ ") or (" ++ Q.expect ++ ")"
  expect_code := "or<" ++ P.expect_code ++ ", " ++ Q.expect_code ++ ">"

/-- Embeds `Not<P>` of `logic.rs`: succeeds exactly when `P`'s check errors,
and fails with the unit `NotError` when `P`'s check succeeds. -/
def Not {T E : Type} (P : Predicate T E) : Predicate T NotError where
  check value :=
    match P.check value with
    | .ok () => .error NotError.mk
    | .error _ => .ok ()
  expect := "not (" ++ P.expect ++ ")"
  expect_code := "not<" ++ P.expect_code ++ ">"

/-- Embeds `Xor<P, Q>` of `logic.rs`: both checks succeeding yields
`Err(NeitherOrBoth::Neither)`, both failing yields
`Err(NeitherOrBoth::Both(BothError::new(left, right)))`, and the mixed cases
succeed. -/
def Xor {T E F : Type} (P : Predicate T E) (Q : Predicate T F) :
    Predicate T (NeitherOrBoth E F) where
  check value :=
    match P.check value, Q.check value with
    | .ok (), .ok () => .error NeitherOrBoth.Neither
    | .error left, .error right => .error (NeitherOrBoth.Both (BothError.mk left right))
    | _, _ => .ok ()
  expect := "(" ++ P.expect ++ ") xor (" ++ Q.expect ++ ")"
  expect_code := "xor<" ++ P.expect_code ++ ", " ++ Q.expect_code ++ ">"

/-- Embeds the `LessError` generated per integer type by the `compare!` macro
of `int/macros.rs`; `other` is the bound `N`. -/
structure LessError where
  other : Int
deriving DecidableEq

/-- Embeds the `LessOrEqualError` generated by the `compare!` macro. -/
structure LessOrEqualError where
  other : Int
deriving DecidableEq

/-- Embeds the `GreaterError` generated by the `compare!` macro. -/
structure GreaterError where
  other : Int
deriving DecidableEq

/-- Embeds the `GreaterOrEqualError` generated by the `compare!` macro. -/
structure GreaterOrEqualError where
  other : Int
deriving DecidableEq

/-- Embeds the `Less<N>` predicate generated per integer type by the
`compare!` macro: `if *value < N { Ok(()) } else { Err(Error::new(N)) }`.
The `int` argument is the name of the integer type, used in the expectation
strings exactly as the macro interpolates `stringify!($int)`. -/
def Less (int : String) (N : Int) : Predicate Int LessError where
  check value := if value < N then .ok () else .error (LessError.mk N)
  expect := int ++ " < " ++ toString N
  expect_code := int ++ "::lt<" ++ toString N ++ ">"

/-- Embeds the `LessOrEqual<N>` predicate generated by the `compare!` macro. -/
def LessOrEqual (int : String) (N : Int) : Predicate Int LessOrEqualError where
  check value := if value ≤ N then .ok () else .error (LessOrEqualError.mk N)
  expect := int ++ " <= " ++ toString N
  expect_code := int ++ "::le<" ++ toString N ++ ">"

/-- Embeds the `Greater<N>` predicate generated by the `compare!` macro. -/
def Greater (int : String) (N : Int) : Predicate Int GreaterError where
  check value := if value > N then .ok () else .error (GreaterError.mk N)
  expect := int ++ " > " ++ toString N
  expect_code := int ++ "::gt<" ++ toString N ++ ">"

/-- Embeds the `GreaterOrEqual<N>` predicate generated by the `compare!`
macro. -/
def GreaterOrEqual (int : String) (N : Int) : Predicate Int GreaterOrEqualError where
  check value := if value ≥ N then .ok () else .error (GreaterOrEqualError.mk N)
  expect := int ++ " >= " ++ toString N
  expect_code := int ++ "::ge<" ++ toString N ++ ">"

/-- Embeds the `Open<M, N>` type alias generated by the `interval!` macro:
`And<Greater<M>, Less<N>>`. -/
def Open (int : String) (M N : Int) : Predicate Int (EitherError GreaterError LessError) :=
  And (Greater int M) (Less int N)

/-- Embeds the `OpenClosed<M, N>` type alias: `And<Greater<M>, LessOrEqual<N>>`. -/
def OpenClosed (int : String) (M N : Int) :
    Predicate Int (EitherError GreaterError LessOrEqualError) :=
  And (Greater int M) (LessOrEqual int N)

/-- Embeds the `ClosedOpen<M, N>` type alias generated by the `interval!`
macro of `int/macros.rs`: `And<GreaterOrEqual<M>, Less<N>>`. There is no
separate interval-checking logic. -/
def ClosedOpen (int : String) (M N : Int) :
    Predicate Int (EitherError GreaterOrEqualError LessError) :=
  And (GreaterOrEqual int M) (Less int N)

/-- Embeds the `Closed<M, N>` type alias: `And<GreaterOrEqual<M>, LessOrEqual<N>>`. -/
def Closed (int : String) (M N : Int) :
    Predicate Int (EitherError GreaterOrEqualError LessOrEqualError) :=
  And (GreaterOrEqual int M) (LessOrEqual int N)

/-- Embeds the `ModuloError` generated per integer type by the `modulo!`
macro of `int/macros.rs`. -/
structure ModuloError where
  divisor : Int
  modulo : Int
deriving DecidableEq

/-- Embeds the Rust `%` operator on a fixed-width integer type whose minimum
value is `lo`: truncated remainder (`Int.tmod`), with `none` modelling the
panic on remainder by zero and, for signed types (`lo < 0`), the panic on
`MIN % -1`. -/
def rustRem (lo : Int) (a : Int) (b : Int) : Option Int :=
  if b = 0 then none
  else if lo < 0 ∧ a = lo ∧ b = -1 then none
  else some (Int.tmod a b)

/-- Embeds `Modulo<D, M>::check` of the `modulo!` macro:
`if *value % D == M { Ok(()) } else { Err(Error::new(D, M)) }`, where the
unguarded `*value % D` is the partial `rustRem`; `none` models a panic. -/
def Modulo.check (lo : Int) (D : Int) (M : Int) (value : Int) :
    Option (Except ModuloError Unit) :=
  (rustRem lo value D).map fun r =>
    if r = M then .ok () else .error (ModuloError.mk D M)

/-- Characters with the Unicode `White_Space` property, which is what Rust's
`char::is_whitespace` (used by `str::trim`) tests. -/
def isRustWhitespace (c : Char) : Bool :=
  [0x9, 0xA, 0xB, 0xC, 0xD, 0x20, 0x85, 0xA0, 0x1680,
    0x2000, 0x2001, 0x2002, 0x2003, 0x2004, 0x2005, 0x2006, 0x2007,
    0x2008, 0x2009, 0x200A, 0x2028, 0x2029, 0x202F, 0x205F, 0x3000].contains c.toNat

/-- Embeds Rust's `str::trim`: removes whitespace from both ends. -/
def trim (s : List Char) : List Char :=
  ((s.dropWhile isRustWhitespace).reverse.dropWhile isRustWhitespace).reverse

/-- Embeds `TrimmedStartError` of `str/core.rs`. -/
structure TrimmedStartError where
deriving DecidableEq

/-- Embeds `TrimmedEndError` of `str/core.rs`. -/
structure TrimmedEndError where
deriving DecidableEq

/-- Embeds `TrimmedError` of `str/core.rs`. -/
structure TrimmedError where
deriving DecidableEq

/-- Embeds `TrimmedStart` of `str/core.rs`. Its check is
`if string.trim() == string { Ok(()) } else { Err(..) }` — note the source
compares against the fully trimmed string, not `trim_start`. -/
def TrimmedStart : Predicate (List Char) TrimmedStartError where
  check value := if trim value = value then .ok () else .error TrimmedStartError.mk
  expect := "string trimmed at the start"
  expect_code := "str::trimmed_start"

/-- Embeds `TrimmedEnd` of `str/core.rs`. Its check is
`if string.trim() == string { Ok(()) } else { Err(..) }` — note the source
compares against the fully trimmed string, not `trim_end`. -/
def TrimmedEnd : Predicate (List Char) TrimmedEndError where
  check value := if trim value = value then .ok () else .error TrimmedEndError.mk
  expect := "string trimmed at the end"
  expect_code := "str::trimmed_end"

/-- Embeds `Trimmed` of `str/core.rs`: `if string.trim() == string`. -/
def Trimmed : Predicate (List Char) TrimmedError where
  check value := if trim value = value then .ok () else .error TrimmedError.mk
  expect := "trimmed string"
  expect_code := "str::trimmed"

/-- Integer type name used when instantiating predicates at `u8`. -/
def u8 : String := "u8"

/-- Integer type name used when instantiating predicates at `u32`. -/
def u32 : String := "u32"

/-- Integer type name used when instantiating predicates at `i32`. -/
def i32 : String := "i32"

end RefinementTypes

namespace RefinementTypes

/-- C3: for every pair of predicates `P`, `Q` and every value `v`,
`And<P, Q>::check(v)` checks `P` first and short-circuits: if `P` fails the
result is the `Left` wrapper of `P`'s error regardless of `Q`'s outcome; if
`P` succeeds and `Q` fails the result is the `Right` wrapper of `Q`'s error;
if both succeed the check succeeds. -/
theorem and_check_spec {T E F : Type} (P : Predicate T E) (Q : Predicate T F) (v : T) :
    (∀ e : E, P.check v = .error e → (And P Q).check v = .error (EitherError.Left e)) ∧
    (∀ f : F, P.check v = .ok () → Q.check v = .error f →
      (And P Q).check v = .error (EitherError.Right f)) ∧
    (P.check v = .ok () → Q.check v = .ok () → (And P Q).check v = .ok ()) := by
  refine ⟨?_, ?_, ?_⟩ <;> intros <;> simp_all [And, Except.mapError, Except.bind]

/-- Witness for `and_check_spec`: `And<GreaterOrEqual<1>, LessOrEqual<10>>`
on `0` fails with the left branch. -/
theorem and_check_spec_witness :
    (And (GreaterOrEqual u8 1) (LessOrEqual u8 10)).check 0 =
      Except.error (EitherError.Left (GreaterOrEqualError.mk 1)) :=
  (and_check_spec (GreaterOrEqual u8 1) (LessOrEqual u8 10) 0).1
    (GreaterOrEqualError.mk 1) (by decide)

/-- C4: for every pair of predicates `P`, `Q` and every value `v`,
`Or<P, Q>::check(v)` fails iff both checks fail, and in that case the failure
carries both underlying errors (`P`'s as `left`, `Q`'s as `right`); if at
least one side succeeds, the check succeeds. -/
theorem or_check_spec {T E F : Type} (P : Predicate T E) (Q : Predicate T F) (v : T) :
    (∀ (e : E) (f : F), P.check v = .error e → Q.check v = .error f →
      (Or P Q).check v = .error (BothError.mk e f)) ∧
    (P.check v = .ok () → (Or P Q).check v = .ok ()) ∧
    (Q.check v = .ok () → (Or P Q).check v = .ok ()) ∧
    (((Or P Q).check v).isOk = false ↔
      (P.check v).isOk = false ∧ (Q.check v).isOk = false) := by
  cases hP : P.check v with
  | error e =>
    cases hQ : Q.check v with
    | error f => simp_all [Or, Except.mapError, Except.isOk, Except.toBool]
    | ok u => cases u; simp_all [Or, Except.mapError, Except.isOk, Except.toBool]
  | ok u => cases u; simp_all [Or, Except.mapError, Except.isOk, Except.toBool]

/-- Witness for `or_check_spec`: `Or<Less<0>, Greater<10>>` on `5` fails with
both errors carried. -/
theorem or_check_spec_witness :
    (Or (Less u8 0) (Greater u8 10)).check 5 =
      Except.error (BothError.mk (LessError.mk 0) (GreaterError.mk 10)) :=
  (or_check_spec (Less u8 0) (Greater u8 10) 5).1
    (LessError.mk 0) (GreaterError.mk 10) (by decide) (by decide)

/-- C5: for every predicate `P` and value `v`, `Not<P>::check(v)` succeeds iff
`P::check(v)` fails, and when it fails its error is the fixed unit `NotError`
(a type with exactly one inhabitant, carrying no detail from `P`). -/
theorem not_check_spec {T E : Type} (P : Predicate T E) (v : T) :
    (((Not P).check v).isOk = true ↔ (P.check v).isOk = false) ∧
    ((P.check v).isOk = true → (Not P).check v = .error NotError.mk) ∧
    (∀ x y : NotError, x = y) := by
  refine ⟨?_, ?_, fun x y => rfl⟩ <;>
    cases hP : P.check v with
    | error e => simp_all [Not, Except.isOk, Except.toBool]
    | ok u => cases u; simp_all [Not, Except.isOk, Except.toBool]

/-- Witness for `not_check_spec`: `Not<Greater<0>>` on `5` fails with the unit
`NotError` since `Greater<0>` succeeds on `5`. -/
theorem not_check_spec_witness :
    (Not (Greater u8 0)).check 5 = Except.error NotError.mk :=
  (not_check_spec (Greater u8 0) 5).2.1 (by decide)

/-- C1 counterexample: on `0`, both `Less<0>` and `Greater<0>` fail, yet
`Xor::check` fails with the `Both` marker carrying both errors, not with
`NeitherOrBoth::Neither` as the claim states; dually, on `5` both
`GreaterOrEqual<0>` and `LessOrEqual<10>` succeed and the failure is the
`Neither` marker, not the `Both` marker. -/
theorem xor_marker_counterexample :
    ((Less i32 0).check 0).isOk = false ∧
    ((Greater i32 0).check 0).isOk = false ∧
    (Xor (Less i32 0) (Greater i32 0)).check 0 ≠ Except.error NeitherOrBoth.Neither ∧
    (Xor (Less i32 0) (Greater i32 0)).check 0 =
      Except.error (NeitherOrBoth.Both (BothError.mk (LessError.mk 0) (GreaterError.mk 0))) ∧
    ((GreaterOrEqual i32 0).check 5).isOk = true ∧
    ((LessOrEqual i32 10).check 5).isOk = true ∧
    (Xor (GreaterOrEqual i32 0) (LessOrEqual i32 10)).check 5 =
      Except.error NeitherOrBoth.Neither := by
  decide

/-- C1 (amended): `Xor<P, Q>::check(v)` succeeds iff exactly one of the two
checks succeeds; when both fail it fails with the `Both` marker carrying both
sides' errors (`NeitherOrBoth::Both`), and when both succeed it fails with the
`Neither` marker (`NeitherOrBoth::Neither`), which carries no information. -/
theorem xor_check_spec {T E F : Type} (P : Predicate T E) (Q : Predicate T F) (v : T) :
    (((Xor P Q).check v).isOk = true ↔
      (((P.check v).isOk = true ∧ (Q.check v).isOk = false) ∨
        ((P.check v).isOk = false ∧ (Q.check v).isOk = true))) ∧
    (∀ (e : E) (f : F), P.check v = .error e → Q.check v = .error f →
      (Xor P Q).check v = .error (NeitherOrBoth.Both (BothError.mk e f))) ∧
    (P.check v = .ok () → Q.check v = .ok () →
      (Xor P Q).check v = .error NeitherOrBoth.Neither) := by
  cases hP : P.check v with
  | error e =>
    cases hQ : Q.check v with
    | error f => simp_all [Xor, Except.isOk, Except.toBool]
    | ok u => cases u; simp_all [Xor, Except.isOk, Except.toBool]
  | ok u =>
    cases u
    cases hQ : Q.check v with
    | error f => simp_all [Xor, Except.isOk, Except.toBool]
    | ok u2 => cases u2; simp_all [Xor, Except.isOk, Except.toBool]

/-- Witness for `xor_check_spec`: both `GreaterOrEqual<0>` and
`LessOrEqual<10>` succeed on `5`, so `Xor` fails with the `Neither` marker. -/
theorem xor_check_spec_witness :
    (Xor (GreaterOrEqual u8 0) (LessOrEqual u8 10)).check 5 =
      Except.error NeitherOrBoth.Neither :=
  (xor_check_spec (GreaterOrEqual u8 0) (LessOrEqual u8 10) 5).2.2 (by decide) (by decide)

end RefinementTypes

namespace RefinementTypes

/-- C6: whenever `P::check(v)` succeeds, `Refinement::refine(v)` succeeds, and
both `get()` on the resulting refinement and `take()` consuming it return a
value equal to `v`. -/
theorem refine_round_trip {T E : Type} (P : Predicate T E) (v : T)
    (h : P.check v = .ok ()) :
    ∃ r : Refinement T E P, Refinement.refine P v = Except.ok r ∧ r.get = v ∧ r.take = v := by
  refine ⟨⟨v⟩, ?_, rfl, rfl⟩
  simp [Refinement.refine, Refinement.unchecked, h]

/-- Witness for `refine_round_trip`: refining `5` under `Closed<1, 10>`
succeeds and `get`/`take` return `5`. -/
theorem refine_round_trip_witness :
    ∃ r : Refinement Int (EitherError GreaterOrEqualError LessOrEqualError) (Closed u32 1 10),
      Refinement.refine (Closed u32 1 10) 5 = Except.ok r ∧ r.get = 5 ∧ r.take = 5 :=
  refine_round_trip (Closed u32 1 10) 5 (by decide)

/-- C7: whenever `P::check(v)` fails with error `e`, `Refinement::refine(v)`
returns `Error::new(v, e)`, whose `value` field is exactly the original
rejected value `v`. -/
theorem refine_rejection_fidelity {T E : Type} (P : Predicate T E) (v : T) (e : E)
    (h : P.check v = .error e) :
    Refinement.refine P v = Except.error (Error.mk v e) ∧ (Error.mk v e).value = v := by
  exact ⟨by simp [Refinement.refine, h], rfl⟩

/-- Witness for `refine_rejection_fidelity`: refining `15` under
`Closed<1, 10>` fails with an error carrying `15` back unmodified. -/
theorem refine_rejection_fidelity_witness :
    Refinement.refine (Closed u32 1 10) 15 =
      Except.error (Error.mk 15 (EitherError.Right (LessOrEqualError.mk 10))) ∧
    (Error.mk (15 : Int) (EitherError.Right (LessOrEqualError.mk 10)) :
      Error Int (EitherError GreaterOrEqualError LessOrEqualError)).value = 15 :=
  refine_rejection_fidelity (Closed u32 1 10) 15
    (EitherError.Right (LessOrEqualError.mk 10)) (by decide)

/-- C2: the `Error` type has two lossy projections: `erase` returns the
rejected value together with the rendered message (discarding the typed
detail), and `message` returns only the rendered message, which depends only
on the predicate statics and the context (discarding both the value and the
detail); concretely, erasing the rejection of `Closed<1, 10>` on `15` retains
`15` in the first component of `erase` while `message` drops it. -/
theorem error_lossy_projections :
    (∀ (T E : Type) (P : Predicate T E) (context : String) (e e' : Error T E),
      Error.erase P context e = (e.value, Error.message P context e) ∧
      Error.message P context e = Error.message P context e') ∧
    Refinement.refine (Closed u32 1 10) 15 =
      Except.error (Error.mk 15 (EitherError.Right (LessOrEqualError.mk 10))) ∧
    (Error.erase (Closed u32 1 10) NoContext
      (Error.mk (15 : Int) (EitherError.Right (LessOrEqualError.mk 10)))).1 = 15 :=
  ⟨fun _ _ _ _ _ _ => ⟨rfl, rfl⟩, by decide, rfl⟩

end RefinementTypes

namespace RefinementTypes

/-- C8 counterexample: with `M = 1`, `N = 0`, the value `v = N = 0` fails, but
with the left (`GreaterOrEqual`) branch of the `And` error — not with the
right (`Less`) branch as the claim states for `v = N`. -/
theorem closed_open_right_branch_counterexample :
    (ClosedOpen i32 1 0).check 0 =
      Except.error (EitherError.Left (GreaterOrEqualError.mk 1)) ∧
    (ClosedOpen i32 1 0).check 0 ≠
      Except.error (EitherError.Right (LessError.mk 0)) := by
  decide

/-- C8 (amended): `ClosedOpen<M, N>::check(v)` succeeds iff `M ≤ v < N`; it is
definitionally `And<GreaterOrEqual<M>, Less<N>>` with no separate interval
logic; `v = M - 1` always fails with the left (`GreaterOrEqual`) branch, and
`v = N` fails with the right (`Less`) branch provided `M ≤ N` (when `N < M`
the left check fails first, so the error is the left branch). -/
theorem closed_open_spec (int : String) (M N v : Int) :
    (((ClosedOpen int M N).check v).isOk = true ↔ M ≤ v ∧ v < N) ∧
    ClosedOpen int M N = And (GreaterOrEqual int M) (Less int N) ∧
    (ClosedOpen int M N).check (M - 1) =
      Except.error (EitherError.Left (GreaterOrEqualError.mk M)) ∧
    (M ≤ N → (ClosedOpen int M N).check N =
      Except.error (EitherError.Right (LessError.mk N))) := by
  refine ⟨?_, rfl, ?_, ?_⟩
  · by_cases hM : v ≥ M <;> by_cases hN : v < N <;>
      simp [ClosedOpen, And, GreaterOrEqual, Less, Except.mapError, Except.bind,
        Except.isOk, Except.toBool, hM, hN]
  · have h : ¬(M - 1 ≥ M) := by omega
    simp [ClosedOpen, And, GreaterOrEqual, Less, Except.mapError, Except.bind, h]
  · intro h
    have h1 : N ≥ M := h
    have h2 : ¬(N < N) := by omega
    simp [ClosedOpen, And, GreaterOrEqual, Less, Except.mapError, Except.bind, h1, h2]

/-- Witness for `closed_open_spec`: for `ClosedOpen<1, 10>` (so `1 ≤ 10`), the
value `10` fails with the right (`Less`) branch. -/
theorem closed_open_spec_witness :
    (1 : Int) ≤ 10 ∧
    (ClosedOpen u32 1 10).check 10 =
      Except.error (EitherError.Right (LessError.mk 10)) :=
  ⟨by decide, (closed_open_spec u32 1 10 0).2.2.2 (by decide)⟩

/-- C9: `TrimmedStart`, `TrimmedEnd` and `Trimmed` are pairwise equivalent —
each succeeds iff the string equals its fully trimmed form; in particular
`TrimmedStart` rejects `"a "` (only trailing whitespace) and `TrimmedEnd`
rejects `" a"` (only leading whitespace). -/
theorem trimmed_predicates_equiv :
    (∀ s : List Char,
      ((TrimmedStart.check s).isOk = true ↔ trim s = s) ∧
      ((TrimmedEnd.check s).isOk = true ↔ trim s = s) ∧
      ((Trimmed.check s).isOk = true ↔ trim s = s) ∧
      (TrimmedStart.check s).isOk = (TrimmedEnd.check s).isOk ∧
      (TrimmedEnd.check s).isOk = (Trimmed.check s).isOk) ∧
    (TrimmedStart.check ['a', ' ']).isOk = false ∧
    (TrimmedEnd.check [' ', 'a']).isOk = false := by
  refine ⟨fun s => ?_, by decide, by decide⟩
  by_cases h : trim s = s <;>
    simp [TrimmedStart, TrimmedEnd, Trimmed, Except.isOk, Except.toBool, h]

/-- C10: for `D ≠ 0` (and, when the type is signed, excluding `v = MIN` with
`D = -1`), `Modulo<D, M>::check(v)` returns without panicking and succeeds iff
the truncated remainder `v % D` equals `M`; with `D = 0` the unguarded
`v % D` panics on every check, modelled here as `none`. -/
theorem modulo_check_spec (lo D M v : Int) :
    (D ≠ 0 → ¬(lo < 0 ∧ v = lo ∧ D = -1) →
      Modulo.check lo D M v =
        some (if Int.tmod v D = M then Except.ok () else Except.error (ModuloError.mk D M)) ∧
      (Modulo.check lo D M v = some (Except.ok ()) ↔ Int.tmod v D = M)) ∧
    Modulo.check lo 0 M v = none := by
  constructor
  · intro hD hMin
    have heq : Modulo.check lo D M v =
        some (if Int.tmod v D = M then Except.ok () else Except.error (ModuloError.mk D M)) := by
      simp [Modulo.check, rustRem, hD, hMin]
    refine ⟨heq, ?_⟩
    rw [heq]
    by_cases h : Int.tmod v D = M <;> simp [h]
  · simp [Modulo.check, rustRem]

/-- Witness for `modulo_check_spec`: on the `i32` range (`MIN = -2^31`),
`Modulo<3, 1>::check(7)` does not panic and succeeds since `7 % 3 == 1`. -/
theorem modulo_check_spec_witness :
    Modulo.check (-(2 ^ 31)) 3 1 7 = some (Except.ok ()) :=
  ((modulo_check_spec (-(2 ^ 31)) 3 1 7).1 (by decide) (by decide)).2.mpr (by decide)

end RefinementTypes
